import Mathlib

/-!
Shallow embedding of the session / message / scheduled-task subsystem of
the Converge-AI repository (src/src/database.py and src/src/scheduler/tasks.py).

Machine time (`datetime.utcnow`) is passed explicitly as a `Nat` parameter
wherever the source reads the clock.  SQLAlchemy rows become Lean structures,
the SQLite tables become lists, and each database-touching function becomes a
pure function from the explicit state (`DB`) to a new state.
-/

namespace ConvergeAI

/-- Row of the `conversation_sessions` table (class `ConversationSession`
in src/src/database.py).  `updated_at` carries the SQLAlchemy
`onupdate=datetime.utcnow` hook: every ORM UPDATE of the row refreshes it. -/
structure ConversationSession where
  session_id : String
  user_id : String
  channel_id : Option String
  thread_ts : Option String
  created_at : Nat
  updated_at : Nat
  is_active : Bool
  deriving Repr, DecidableEq

/-- Row of the `messages` table (class `Message` in src/src/database.py). -/
structure Message where
  id : Nat
  session_id : String
  role : String
  content : String
  timestamp : Nat
  msg_metadata : Option String
  deriving Repr, DecidableEq

/-- Row of the `scheduled_tasks` table (class `ScheduledTask` in
src/src/database.py). -/
structure ScheduledTask where
  task_id : String
  user_id : String
  channel_id : String
  task_type : String
  message : String
  schedule_time : Option Nat
  cron_expression : Option String
  is_recurring : Bool
  is_active : Bool
  created_at : Nat
  last_run : Option Nat
  deriving Repr, DecidableEq

/-- The whole SQLite database state. -/
structure DB where
  sessions : List ConversationSession
  messages : List Message
  tasks : List ScheduledTask
  deriving Repr, DecidableEq

/-- Python truthiness of an `Optional[str]`: `None` and `""` are falsy.
Models the `if channel_id:` / `if thread_ts:` guards in
`get_or_create_session`. -/
def truthy : Option String → Bool
  | none => false
  | some s => !(s == "")

/-- The filter built by `get_or_create_session` (src/src/database.py,
lines 193-201): user must match, session must be active, and the channel /
thread filters are applied only when the corresponding argument is truthy.
A SQL `column == value` comparison on a NULL column is false, which the
`Option` equality reproduces. -/
def sessionMatches (user_id : String) (channel_id thread_ts : Option String)
    (s : ConversationSession) : Bool :=
  s.user_id == user_id && s.is_active
    && (if truthy channel_id then s.channel_id == channel_id else true)
    && (if truthy thread_ts then s.thread_ts == thread_ts else true)

/-- The session id generated for a fresh session:
`f"session_{user_id}_{datetime.utcnow().timestamp()}"`
(src/src/database.py, line 213).  The wall-clock reading is the `now`
parameter. -/
def newSessionId (user_id : String) (now : Nat) : String :=
  "session_" ++ user_id ++ "_" ++ toString now

/-- The row inserted by `get_or_create_session` when no active session
matches (src/src/database.py, lines 212-221): both timestamps are the
creation instant, the session starts active, and the identity fields are
stored exactly as passed (including `None` / `""`). -/
def freshSession (now : Nat) (user_id : String)
    (channel_id thread_ts : Option String) : ConversationSession :=
  { session_id := newSessionId user_id now, user_id := user_id,
    channel_id := channel_id, thread_ts := thread_ts,
    created_at := now, updated_at := now, is_active := true }

/-- `get_or_create_session` (src/src/database.py, lines 171-224).
Looks for the first active session matching the supplied identity fields;
if found, refreshes its `updated_at` and returns its id; otherwise inserts a
fresh session (active, both timestamps `now`) and returns the generated id.
Returns the session id together with the new database state. -/
def get_or_create_session (now : Nat) (user_id : String)
    (channel_id thread_ts : Option String) (db : DB) : String × DB :=
  match db.sessions.find? (sessionMatches user_id channel_id thread_ts) with
  | some s =>
      (s.session_id,
        { db with sessions := db.sessions.map fun x =>
            if x.session_id == s.session_id then { x with updated_at := now } else x })
  | none =>
      (newSessionId user_id now,
        { db with sessions := db.sessions ++
            [freshSession now user_id channel_id thread_ts] })

/-- `add_message` (src/src/database.py, lines 227-252): appends one message
row.  The autoincrement id is the largest existing id plus one, as SQLite
assigns it for an `INTEGER PRIMARY KEY`. -/
def add_message (now : Nat) (session_id role content : String)
    (msg_metadata : Option String) (db : DB) : DB :=
  let nextId := (db.messages.map Message.id).foldr max 0 + 1
  { db with messages := db.messages ++
      [{ id := nextId, session_id := session_id, role := role, content := content,
         timestamp := now, msg_metadata := msg_metadata }] }

/-- One entry of the list returned by `get_session_history`: the
`{"role": ..., "content": ..., "timestamp": ...}` dict built at
src/src/database.py, lines 276-283. -/
structure HistoryEntry where
  role : String
  content : String
  timestamp : Nat
  deriving Repr, DecidableEq

/-- The `ORDER BY timestamp ASC` comparison used by `get_session_history`. -/
def msgLe (a b : Message) : Prop := a.timestamp ≤ b.timestamp

instance : DecidableRel msgLe := fun a b => Nat.decLe a.timestamp b.timestamp

instance : IsTotal Message msgLe := ⟨fun a b => Nat.le_total a.timestamp b.timestamp⟩

instance : IsTrans Message msgLe := ⟨fun _ _ _ h h' => Nat.le_trans h h'⟩

/-- `get_session_history` (src/src/database.py, lines 255-283): filters the
message table to the session, sorts ascending by timestamp (stable, so ties
keep insertion order, as SQLite returns them), takes the first `limit` rows,
and projects each row to role/content/timestamp. -/
def get_session_history (session_id : String) (limit : Nat) (db : DB) :
    List HistoryEntry :=
  (((db.messages.filter fun m => m.session_id == session_id).insertionSort
      msgLe).take limit).map
    fun m => { role := m.role, content := m.content, timestamp := m.timestamp }

/-- `clear_session` (src/src/database.py, lines 286-305): if a session with
this id exists, set its `is_active` to false and commit; the ORM UPDATE also
refreshes `updated_at` through the column's `onupdate` hook.  If no session
matches, nothing happens and no error is raised. -/
def clear_session (now : Nat) (session_id : String) (db : DB) : DB :=
  match db.sessions.find? (fun s => s.session_id == session_id) with
  | none => db
  | some _ =>
      { db with sessions := db.sessions.map fun s =>
          if s.session_id == session_id then
            { s with is_active := false, updated_at := now }
          else s }

/-! ## Scheduler (src/src/scheduler/tasks.py) -/

/-- Outcome of one `await slack_client.chat_postMessage(...)` call: the call
either returns (its return value — success or reported failure — is ignored
by the dispatcher) or raises an exception. -/
inductive Delivery where
  | returns : Delivery
  | raises : Delivery
  deriving Repr, DecidableEq

/-- The module global `slack_client` (src/src/scheduler/tasks.py, line 29):
`none` models an unconfigured client (the `if slack_client:` guard skips the
post), `some post` models a configured client whose behaviour on a given
channel and text is `post channel text`. -/
def SlackClient := Option (String → String → Delivery)

/-- Failure modes that the `except Exception` block of
`execute_scheduled_task` can catch: an exception raised by the delivery
callback, or a store failure raised at `db.commit()`. -/
inductive ExecError where
  | actionError : ExecError
  | storageError : ExecError
  deriving Repr, DecidableEq

/-- Lookup of a task row by primary key, as the
`db.query(ScheduledTask).filter(ScheduledTask.task_id == task_id).first()`
call does (src/src/scheduler/tasks.py, lines 54-56). -/
def findTask (task_id : String) (tasks : List ScheduledTask) :
    Option ScheduledTask :=
  tasks.find? fun t => t.task_id == task_id

/-- The text posted for a firing task:
`f"⏰ Reminder: {task.message}"` (src/src/scheduler/tasks.py, line 66). -/
def reminderText (message : String) : String :=
  "⏰ Reminder: " ++ message

/-- What the delivery step of a firing does for a given client and task:
no client means the post is skipped (so nothing can raise); a configured
client posts to the task's channel and either returns or raises. -/
def deliveryOutcome (client : SlackClient) (t : ScheduledTask) : Delivery :=
  match client with
  | none => .returns
  | some post => post t.channel_id (reminderText t.message)

/-- The task-row update committed by a firing at time `now`
(src/src/scheduler/tasks.py, lines 70-77): `last_run` is set to `now`
unconditionally, and `is_active` is flipped to false when the task is not
recurring. -/
def recordFiring (now : Nat) (t : ScheduledTask) : ScheduledTask :=
  { t with last_run := some now,
           is_active := if t.is_recurring then t.is_active else false }

/-- The body of the `try:` block of `execute_scheduled_task`
(src/src/scheduler/tasks.py, lines 52-77), as a fallible computation.
Steps, in source order: fetch the task; if absent or inactive, log and
return with the store unchanged; post the reminder (an exception here is
`ActionError` — at this point nothing has been committed); set `last_run`
and, for non-recurring tasks, clear `is_active`; commit (a store fault here
is `StorageError`, and the uncommitted row change is discarded). -/
def executeTaskBody (now : Nat) (client : SlackClient) (commitOk : Bool)
    (task_id : String) (db : DB) : Except ExecError DB :=
  match findTask task_id db.tasks with
  | none => .ok db
  | some task =>
      if task.is_active = false then .ok db
      else
        match deliveryOutcome client task with
        | .raises => .error .actionError
        | .returns =>
            if commitOk then
              .ok { db with tasks := db.tasks.map fun t =>
                      if t.task_id == task_id then recordFiring now t else t }
            else .error .storageError

/-- `execute_scheduled_task` (src/src/scheduler/tasks.py, lines 43-80).
The whole body sits in `try: ... except Exception as e: logger.error(...)`,
so every raised exception is swallowed: an error from the body leaves the
caller with the store unchanged (nothing had been committed) and no
exception propagates. -/
def execute_scheduled_task (now : Nat) (client : SlackClient)
    (commitOk : Bool) (task_id : String) (db : DB) : DB :=
  match executeTaskBody now client commitOk task_id db with
  | .ok db2 => db2
  | .error _ => db

/-! ## Concrete example states used by witnesses and counterexamples -/

/-- A one-time (non-recurring) reminder task, still active, never run. -/
def exTask1 : ScheduledTask :=
  ⟨"T1", "u", "C1", "reminder", "hi", some 10, none, false, true, 0, none⟩

/-- Store holding only `exTask1`. -/
def exDB1 : DB := ⟨[], [], [exTask1]⟩

/-- Store with one session having two messages, timestamps 0 and 1. -/
def exDB2 : DB :=
  ⟨[], [⟨1, "s", "user", "a", 0, none⟩, ⟨2, "s", "user", "b", 1, none⟩], []⟩

/-- Store with one session, one message and one task, none named `nosuch`. -/
def exDB3 : DB :=
  ⟨[⟨"S1", "u", none, none, 0, 0, true⟩], [⟨1, "S1", "user", "a", 0, none⟩],
    [exTask1]⟩

/-- A recurring cron task, active, never run. -/
def exTask7 : ScheduledTask :=
  ⟨"T7", "u", "C1", "reminder", "standup", none, some "0 9 * * *", true, true,
    0, none⟩

/-- Store holding only the recurring task `exTask7`. -/
def exDB7 : DB := ⟨[], [], [exTask7]⟩

/-- Two one-time tasks due at the same tick. -/
def exTask8A : ScheduledTask :=
  ⟨"TA", "u", "CA", "reminder", "a", some 5, none, false, true, 0, none⟩

/-- Second task of the same tick as `exTask8A`. -/
def exTask8B : ScheduledTask :=
  ⟨"TB", "u", "CB", "reminder", "b", some 5, none, false, true, 0, none⟩

/-- Store holding the two same-tick tasks. -/
def exDB8 : DB := ⟨[], [], [exTask8A, exTask8B]⟩

/-- An active session of user `u` with no channel or thread. -/
def exSess1 : ConversationSession := ⟨"S1", "u", none, none, 0, 0, true⟩

/-- A second, unrelated active session. -/
def exSess2 : ConversationSession := ⟨"S2", "v", some "C2", none, 0, 0, true⟩

/-- Store with two sessions, one message owned by `S1`, and one task. -/
def exDB9 : DB := ⟨[exSess1, exSess2], [⟨1, "S1", "user", "a", 0, none⟩], [exTask1]⟩

/-- Store with one active session of user `u` whose channel and thread
identity fields are both set. -/
def exDB10 : DB := ⟨[⟨"S1", "u", some "C1", some "T1", 0, 0, true⟩], [], []⟩

/-! ## Helper lemmas -/

section Helpers

variable {α : Type} {κ : Type}

/-- `find?` over a map by a function that does not change the predicate's
verdict gives the mapped result of the original `find?`. -/
theorem find?_map_comm (p : α → Bool) (f : α → α) (hp : ∀ x, p (f x) = p x)
    (l : List α) : (l.map f).find? p = (l.find? p).map f := by
  rw [List.find?_map]
  have hpf : p ∘ f = p := funext hp
  rw [hpf]

/-- `find?` over a map is unchanged when the mapping fixes every element the
predicate accepts. -/
theorem find?_map_fix (p : α → Bool) (f : α → α) (hp : ∀ x, p (f x) = p x)
    (hf : ∀ x, p x = true → f x = x) (l : List α) :
    (l.map f).find? p = l.find? p := by
  rw [find?_map_comm p f hp]
  cases hfind : l.find? p with
  | none => rfl
  | some a => simp [hf a (List.find?_some hfind)]

/-- Updating (by key) through a key-preserving function does not change any
key-equality test. -/
theorem key_pred_inv [BEq κ] (key : α → κ) (k k2 : κ) (g : α → α)
    (hg : ∀ x, key (g x) = key x) (x : α) :
    (key (if key x == k then g x else x) == k2) = (key x == k2) := by
  split
  · rw [hg]
  · rfl

end Helpers

/-- `get_session_history` reads the store only through its message table. -/
theorem get_session_history_congr (sid : String) (limit : Nat) (db db2 : DB)
    (h : db.messages = db2.messages) :
    get_session_history sid limit db = get_session_history sid limit db2 := by
  unfold get_session_history
  rw [h]

/-- A freshly inserted session matches the very filter that failed to find
one: same user, active, and its channel / thread fields equal the arguments
whenever those are truthy. -/
theorem sessionMatches_fresh (u : String) (c t : Option String) (now : Nat) :
    sessionMatches u c t (freshSession now u c t) = true := by
  simp [sessionMatches, freshSession]

/-- Refreshing `updated_at` of any session does not change whether it
matches an identity filter. -/
theorem sessionMatches_touch (u : String) (c t : Option String) (sid : String)
    (now : Nat) (x : ConversationSession) :
    sessionMatches u c t
        (if x.session_id == sid then { x with updated_at := now } else x)
      = sessionMatches u c t x := by
  split <;> rfl

/-- Equation for `get_or_create_session` when the lookup finds a session:
the found id is returned and only its `updated_at` is refreshed. -/
theorem resolve_of_found (now : Nat) (u : String) (c t : Option String)
    (db : DB) (s : ConversationSession)
    (h : db.sessions.find? (sessionMatches u c t) = some s) :
    get_or_create_session now u c t db
      = (s.session_id,
          { db with sessions := db.sessions.map fun x =>
              if x.session_id == s.session_id then { x with updated_at := now }
              else x }) := by
  unfold get_or_create_session
  rw [h]

/-- Equation for `get_or_create_session` when the lookup finds nothing:
a fresh session is appended and its generated id returned. -/
theorem resolve_of_not_found (now : Nat) (u : String) (c t : Option String)
    (db : DB) (h : db.sessions.find? (sessionMatches u c t) = none) :
    get_or_create_session now u c t db
      = (newSessionId u now,
          { db with sessions := db.sessions ++ [freshSession now u c t] }) := by
  unfold get_or_create_session
  rw [h]

/-- C5: For every identity triple (user, channel, thread), two consecutive
resolve calls (`get_or_create_session`) with that triple and no intervening
`clear_session` return the same session id: the second call finds the
session created or found by the first and only refreshes `updated_at`. -/
theorem consecutive_resolves_return_same_id (now1 now2 : Nat) (u : String)
    (c t : Option String) (db : DB) :
    (get_or_create_session now2 u c t
        (get_or_create_session now1 u c t db).2).1
      = (get_or_create_session now1 u c t db).1 := by
  cases hfind : db.sessions.find? (sessionMatches u c t) with
  | some s =>
      rw [resolve_of_found now1 u c t db s hfind]
      have h2 : (db.sessions.map fun x =>
            if x.session_id == s.session_id then { x with updated_at := now1 }
            else x).find? (sessionMatches u c t)
          = some { s with updated_at := now1 } := by
        rw [find?_map_comm (sessionMatches u c t) _
            (sessionMatches_touch u c t s.session_id now1), hfind,
            Option.map_some']
        simp
      rw [resolve_of_found now2 u c t _ _ h2]
  | none =>
      rw [resolve_of_not_found now1 u c t db hfind]
      have h2 : (db.sessions ++ [freshSession now1 u c t]).find?
            (sessionMatches u c t) = some (freshSession now1 u c t) := by
        rw [List.find?_append, hfind, Option.none_or, List.find?_singleton,
            sessionMatches_fresh]
        rfl
      rw [resolve_of_found now2 u c t _ _ h2]
      rfl

/-- C4 (code bug): the session id is generated from the wall clock alone
(`session_{user}_{timestamp}`), so when the clock reading at the second
resolve equals the one at the original creation, the id generated after a
`clear_session` collides with the cleared id — the resolve returns the very
id that was just cleared, contradicting the specified collision-freedom. -/
theorem cleared_session_id_collides_at_equal_clock :
    (get_or_create_session 5 "u" none none
        (clear_session 5 (get_or_create_session 5 "u" none none ⟨[], [], []⟩).1
          (get_or_create_session 5 "u" none none ⟨[], [], []⟩).2)).1
      = (get_or_create_session 5 "u" none none ⟨[], [], []⟩).1
    ∧ (get_or_create_session 5 "u" none none ⟨[], [], []⟩).1 = "session_u_5"
    ∧ ((clear_session 5 "session_u_5"
          (get_or_create_session 5 "u" none none ⟨[], [], []⟩).2).sessions.map
        ConversationSession.is_active) = [false] := by
  decide

/-- C10: the channel and thread identity fields narrow the resolve lookup
only when truthy.  On a store whose single active session of user `u` has
both `channel_id` and `thread_ts` set, a resolve passing `None` (and one
passing `""`) for both fields applies no filter on them and returns that
existing session's id `S1` instead of creating a new session. -/
theorem falsy_identity_fields_apply_no_filter :
    (get_or_create_session 7 "u" none none exDB10).1 = "S1"
    ∧ (get_or_create_session 7 "u" (some "") (some "") exDB10).1 = "S1"
    ∧ exDB10.sessions.map ConversationSession.channel_id = [some "C1"]
    ∧ exDB10.sessions.map ConversationSession.thread_ts = [some "T1"]
    ∧ (get_or_create_session 7 "u" none none exDB10).2.sessions.length = 1 := by
  decide

/-- Equation for a completed firing: when the task is found and active, the
delivery step returns, and the commit succeeds, the task table is rewritten
with `recordFiring` on the fired row. -/
theorem execute_of_fired (now : Nat) (client : SlackClient) (tid : String)
    (db : DB) (t : ScheduledTask)
    (hfind : findTask tid db.tasks = some t)
    (hact : t.is_active = true)
    (hdel : deliveryOutcome client t = .returns) :
    execute_scheduled_task now client true tid db
      = { db with tasks := db.tasks.map fun x =>
            if x.task_id == tid then recordFiring now x else x } := by
  unfold execute_scheduled_task executeTaskBody
  rw [hfind]
  dsimp only
  rw [hact, hdel]
  simp

/-- After a completed firing, looking the task up again returns its row with
`recordFiring` applied. -/
theorem findTask_after_fired (now : Nat) (client : SlackClient) (tid : String)
    (db : DB) (t : ScheduledTask)
    (hfind : findTask tid db.tasks = some t)
    (hact : t.is_active = true)
    (hdel : deliveryOutcome client t = .returns) :
    findTask tid (execute_scheduled_task now client true tid db).tasks
      = some (recordFiring now t) := by
  rw [execute_of_fired now client tid db t hfind hact hdel]
  show ((db.tasks.map fun x =>
      if x.task_id == tid then recordFiring now x else x).find? fun x =>
        x.task_id == tid) = some (recordFiring now t)
  have hfind2 : (db.tasks.find? fun x => x.task_id == tid) = some t := hfind
  rw [find?_map_comm _ _
      (key_pred_inv ScheduledTask.task_id tid tid (recordFiring now)
        (fun _ => rfl)),
    hfind2, Option.map_some']
  have ht : (t.task_id == tid) = true := by
    have h := List.find?_some hfind2
    exact h
  rw [ht]
  simp

/-- `recordFiring` changes neither the channel nor the message of a task, so
the delivery step behaves identically on the updated row. -/
theorem deliveryOutcome_recordFiring (client : SlackClient) (now : Nat)
    (t : ScheduledTask) :
    deliveryOutcome client (recordFiring now t) = deliveryOutcome client t := by
  cases client <;> rfl

/-- Whatever one firing of task `tid` does (any client behaviour, any commit
outcome), the row of every other task id is untouched. -/
theorem findTask_frame (now : Nat) (client : SlackClient) (commitOk : Bool)
    (tid : String) (db : DB) (id2 : String) (hne : id2 ≠ tid) :
    findTask id2 (execute_scheduled_task now client commitOk tid db).tasks
      = findTask id2 db.tasks := by
  unfold execute_scheduled_task executeTaskBody
  cases hfind : findTask tid db.tasks with
  | none => rfl
  | some task =>
      by_cases hact : task.is_active = false
      · simp [hact]
      · simp only [hact, if_false]
        cases hdel : deliveryOutcome client task with
        | raises => rfl
        | returns =>
            cases commitOk with
            | false => rfl
            | true =>
                simp only [if_true]
                show ((db.tasks.map fun x =>
                    if x.task_id == tid then recordFiring now x else x).find?
                      fun x => x.task_id == id2) = findTask id2 db.tasks
                exact find?_map_fix _ _
                  (key_pred_inv ScheduledTask.task_id tid id2 (recordFiring now)
                    (fun _ => rfl))
                  (fun x hx => by
                    have hxid : x.task_id = id2 := by
                      exact eq_of_beq hx
                    have : (x.task_id == tid) = false :=
                      beq_eq_false_iff_ne.mpr (hxid ▸ hne)
                    rw [this]
                    simp)
                  db.tasks

/-- C1 counterexample: on a store whose task `T1` exists, is active and is
non-recurring, a firing whose delivery callback raises leaves the store
completely unchanged — `last_run` stays `None` and `is_active` stays true,
so the execution is NOT recorded. -/
theorem raising_callback_leaves_task_unrecorded :
    execute_scheduled_task 10 (some fun _ _ => .raises) true "T1" exDB1 = exDB1
    ∧ findTask "T1" exDB1.tasks = some exTask1
    ∧ exTask1.is_active = true
    ∧ exTask1.is_recurring = false
    ∧ exTask1.last_run = none := by
  decide

/-- C1 (amended): for a firing of an existing, active task, the dispatcher
records the execution — `last_run` set to the firing time and, for a
non-recurring task, `is_active` flipped to false — exactly when the delivery
callback does not raise (success, reported failure in the ignored return
value, or no configured client); when the callback raises, the exception is
swallowed and nothing at all is recorded. -/
theorem dispatcher_records_iff_callback_returns (now : Nat)
    (client : SlackClient) (tid : String) (db : DB) (t : ScheduledTask)
    (hfind : findTask tid db.tasks = some t)
    (hact : t.is_active = true) :
    (deliveryOutcome client t = .returns →
      ∃ t2, findTask tid (execute_scheduled_task now client true tid db).tasks
          = some t2
        ∧ t2.last_run = some now
        ∧ (t.is_recurring = false → t2.is_active = false))
    ∧ (deliveryOutcome client t = .raises →
        execute_scheduled_task now client true tid db = db) := by
  constructor
  · intro hdel
    refine ⟨recordFiring now t,
      findTask_after_fired now client tid db t hfind hact hdel, rfl, ?_⟩
    intro hrec
    simp [recordFiring, hrec]
  · intro hdel
    unfold execute_scheduled_task executeTaskBody
    rw [hfind]
    dsimp only
    rw [hact, hdel]
    simp

/-- Witness for C1: firing `T1` of `exDB1` with no configured client (the
post is skipped, so delivery returns) records the execution. -/
theorem dispatcher_records_iff_callback_returns_witness :
    ∃ t2, findTask "T1" (execute_scheduled_task 10 none true "T1" exDB1).tasks
        = some t2
      ∧ t2.last_run = some 10
      ∧ (exTask1.is_recurring = false → t2.is_active = false) :=
  (dispatcher_records_iff_callback_returns 10 none "T1" exDB1 exTask1
    (by decide) (by decide)).1 (by decide)

/-- C6: a non-recurring task that is active when `execute_scheduled_task`
fires it, whose delivery does not raise and whose commit succeeds, ends with
`is_active = false` (terminal) and `last_run` set to the firing time. -/
theorem one_time_firing_is_terminal (now : Nat) (client : SlackClient)
    (tid : String) (db : DB) (t : ScheduledTask)
    (hfind : findTask tid db.tasks = some t)
    (hact : t.is_active = true)
    (hrec : t.is_recurring = false)
    (hdel : deliveryOutcome client t = .returns) :
    ∃ t2, findTask tid (execute_scheduled_task now client true tid db).tasks
        = some t2
      ∧ t2.is_active = false
      ∧ t2.last_run = some now := by
  refine ⟨recordFiring now t,
    findTask_after_fired now client tid db t hfind hact hdel, ?_, rfl⟩
  simp [recordFiring, hrec]

/-- Witness for C6 on the concrete one-time task `T1`. -/
theorem one_time_firing_is_terminal_witness :
    ∃ t2, findTask "T1"
        (execute_scheduled_task 11 (some fun _ _ => .returns) true "T1"
          exDB1).tasks = some t2
      ∧ t2.is_active = false
      ∧ t2.last_run = some 11 :=
  one_time_firing_is_terminal 11 (some fun _ _ => .returns) "T1" exDB1 exTask1
    (by decide) (by decide) (by decide) (by decide)

/-- C7: a recurring task stays `is_active = true` after every firing, and
`last_run` strictly increases from one successful firing to the next
(firing times advance between distinct occurrences). -/
theorem recurring_firing_stays_active (now1 now2 : Nat)
    (cl1 cl2 : SlackClient) (tid : String) (db : DB) (t : ScheduledTask)
    (hfind : findTask tid db.tasks = some t)
    (hact : t.is_active = true)
    (hrec : t.is_recurring = true)
    (hd1 : deliveryOutcome cl1 t = .returns)
    (hd2 : deliveryOutcome cl2 t = .returns)
    (hlt : now1 < now2) :
    ∃ t1 t2,
      findTask tid (execute_scheduled_task now1 cl1 true tid db).tasks
        = some t1
      ∧ findTask tid (execute_scheduled_task now2 cl2 true tid
          (execute_scheduled_task now1 cl1 true tid db)).tasks = some t2
      ∧ t1.is_active = true ∧ t2.is_active = true
      ∧ t1.last_run = some now1 ∧ t2.last_run = some now2
      ∧ ∀ a b, t1.last_run = some a → t2.last_run = some b → a < b := by
  have h1 : findTask tid (execute_scheduled_task now1 cl1 true tid db).tasks
      = some (recordFiring now1 t) :=
    findTask_after_fired now1 cl1 tid db t hfind hact hd1
  have hact1 : (recordFiring now1 t).is_active = true := by
    simp [recordFiring, hrec, hact]
  have hd2a : deliveryOutcome cl2 (recordFiring now1 t) = .returns := by
    rw [deliveryOutcome_recordFiring]
    exact hd2
  have h2 : findTask tid (execute_scheduled_task now2 cl2 true tid
        (execute_scheduled_task now1 cl1 true tid db)).tasks
      = some (recordFiring now2 (recordFiring now1 t)) :=
    findTask_after_fired now2 cl2 tid _ (recordFiring now1 t) h1 hact1 hd2a
  refine ⟨recordFiring now1 t, recordFiring now2 (recordFiring now1 t),
    h1, h2, hact1, ?_, rfl, rfl, ?_⟩
  · simp [recordFiring, hrec, hact]
  · intro a b ha hb
    simp only [recordFiring, Option.some.injEq] at ha hb
    rw [← ha, ← hb]
    exact hlt

/-- Witness for C7 on the concrete recurring task `T7`, fired at times 100
and then 200. -/
theorem recurring_firing_stays_active_witness :
    ∃ t1 t2,
      findTask "T7" (execute_scheduled_task 100 none true "T7" exDB7).tasks
        = some t1
      ∧ findTask "T7" (execute_scheduled_task 200 none true "T7"
          (execute_scheduled_task 100 none true "T7" exDB7)).tasks = some t2
      ∧ t1.is_active = true ∧ t2.is_active = true
      ∧ t1.last_run = some 100 ∧ t2.last_run = some 200
      ∧ ∀ a b, t1.last_run = some a → t2.last_run = some b → a < b :=
  recurring_firing_stays_active 100 200 none none "T7" exDB7 exTask7
    (by decide) (by decide) (by decide) (by decide) (by decide) (by decide)

/-- C8: `execute_scheduled_task` never propagates a failure: whenever the
`try:` body raises (delivery exception or store fault), the caller gets the
store back unchanged instead of an exception; the firing of task `A`
touches no other task's row (whatever `A`'s client or commit behaviour),
so a task `B` due at the same tick still fires — after `A`'s arbitrary
firing and `B`'s successful one, `B`'s `last_run` is set. -/
theorem firing_failure_is_isolated (now : Nat) (clA : SlackClient)
    (commitA : Bool) (A B : String) (clB : SlackClient) (db : DB)
    (tB : ScheduledTask)
    (hne : B ≠ A)
    (hB : findTask B db.tasks = some tB)
    (hact : tB.is_active = true)
    (hdB : deliveryOutcome clB tB = .returns) :
    (∀ e, executeTaskBody now clA commitA A db = .error e →
      execute_scheduled_task now clA commitA A db = db)
    ∧ findTask B (execute_scheduled_task now clA commitA A db).tasks = some tB
    ∧ ∃ t2, findTask B (execute_scheduled_task now clB true B
          (execute_scheduled_task now clA commitA A db)).tasks = some t2
        ∧ t2.last_run = some now := by
  have hframe : findTask B (execute_scheduled_task now clA commitA A db).tasks
      = some tB := by
    rw [findTask_frame now clA commitA A db B hne]
    exact hB
  refine ⟨?_, hframe, recordFiring now tB,
    findTask_after_fired now clB B _ tB hframe hact hdB, rfl⟩
  intro e he
  unfold execute_scheduled_task
  rw [he]

/-- Witness for C8: `TA` and `TB` are both due; `TA`'s delivery raises
(`executeTaskBody` errors with `ActionError`), yet `TB` still fires. -/
theorem firing_failure_is_isolated_witness :
    (∀ e, executeTaskBody 5 (some fun _ _ => .raises) true "TA" exDB8
        = .error e →
      execute_scheduled_task 5 (some fun _ _ => .raises) true "TA" exDB8
        = exDB8)
    ∧ findTask "TB" (execute_scheduled_task 5 (some fun _ _ => .raises) true
        "TA" exDB8).tasks = some exTask8B
    ∧ ∃ t2, findTask "TB" (execute_scheduled_task 5 none true "TB"
          (execute_scheduled_task 5 (some fun _ _ => .raises) true "TA"
            exDB8)).tasks = some t2
        ∧ t2.last_run = some 5 :=
  firing_failure_is_isolated 5 (some fun _ _ => .raises) true "TA" "TB" none
    exDB8 exTask8B (by decide) (by decide) (by decide) (by decide)

/-- C2 counterexample: session `s` holds two messages, timestamps 0 and 1;
`get_session_history "s" 1` returns the message with timestamp 0 — the
OLDEST one — although a more recent message (timestamp 1) exists, so the
window is a head window, not the claimed tail window of most-recent
messages. -/
theorem history_returns_oldest_not_newest :
    get_session_history "s" 1 exDB2 = [⟨"user", "a", 0⟩]
    ∧ (⟨2, "s", "user", "b", 1, none⟩ : Message) ∈ exDB2.messages := by
  decide

/-- C2 (amended): `get_session_history` returns at most `limit` messages in
ascending timestamp order, and when the session holds more than `limit`
messages the ones returned are the OLDEST `limit` (a head window): the
limited read is the `limit`-prefix of the full read. -/
theorem history_is_sorted_head_window (sid : String) (limit : Nat) (db : DB) :
    (get_session_history sid limit db).length ≤ limit
    ∧ List.Pairwise (fun a b => a.timestamp ≤ b.timestamp)
        (get_session_history sid limit db)
    ∧ get_session_history sid limit db
        = (get_session_history sid db.messages.length db).take limit := by
  refine ⟨?_, ?_, ?_⟩
  · unfold get_session_history
    rw [List.length_map]
    exact List.length_take_le _ _
  · unfold get_session_history
    rw [List.pairwise_map]
    exact List.Pairwise.sublist (List.take_sublist _ _)
      (List.sorted_insertionSort msgLe _)
  · unfold get_session_history
    have hlen : ((db.messages.filter fun m =>
          m.session_id == sid).insertionSort msgLe).length
        ≤ db.messages.length := by
      rw [List.length_insertionSort]
      exact List.length_filter_le _ _
    rw [List.take_of_length_le hlen, List.map_take]

/-- C3 counterexample: on a store whose session, message and task tables
contain no row named `nosuch`, all three operations complete silently —
`clear_session` and `execute_scheduled_task` return the store unchanged and
the history read returns the empty list; no `NotFoundError` is raised
(indeed no such error type exists anywhere in the source). -/
theorem unknown_id_operations_complete_silently :
    clear_session 3 "nosuch" exDB3 = exDB3
    ∧ get_session_history "nosuch" 50 exDB3 = []
    ∧ execute_scheduled_task 3 none true "nosuch" exDB3 = exDB3
    ∧ exDB3.sessions.find? (fun s => s.session_id == "nosuch") = none
    ∧ findTask "nosuch" exDB3.tasks = none
    ∧ exDB3.sessions ≠ [] ∧ exDB3.messages ≠ [] ∧ exDB3.tasks ≠ [] := by
  decide

/-- C3 (amended): an operation naming an unknown session or task id
completes silently rather than raising: `clear_session` is a no-op,
`execute_scheduled_task` logs and returns with the store unchanged, and the
history read returns the empty list. -/
theorem unknown_id_operations_are_noops (now limit : Nat)
    (client : SlackClient) (commitOk : Bool) (sid tid : String) (db : DB)
    (hs : db.sessions.find? (fun x => x.session_id == sid) = none)
    (ht : findTask tid db.tasks = none)
    (hm : db.messages.filter (fun m => m.session_id == sid) = []) :
    clear_session now sid db = db
    ∧ execute_scheduled_task now client commitOk tid db = db
    ∧ get_session_history sid limit db = [] := by
  refine ⟨?_, ?_, ?_⟩
  · unfold clear_session
    rw [hs]
  · unfold execute_scheduled_task executeTaskBody
    rw [ht]
  · unfold get_session_history
    rw [hm]
    simp [List.insertionSort]

/-- Witness for C3 on the concrete store `exDB3` and the id `nosuch`. -/
theorem unknown_id_operations_are_noops_witness :
    clear_session 3 "nosuch" exDB3 = exDB3
    ∧ execute_scheduled_task 3 none false "nosuch" exDB3 = exDB3
    ∧ get_session_history "nosuch" 7 exDB3 = [] :=
  unknown_id_operations_are_noops 3 7 none false "nosuch" "nosuch" exDB3
    (by decide) (by decide) (by decide)

/-- C9 counterexample: clearing session `S1` does not change only its
`is_active` flag — the ORM `onupdate` hook also refreshes `updated_at`
(0 before, the clear time 9 after). -/
theorem clear_session_refreshes_updated_at :
    exDB9.sessions.map ConversationSession.updated_at = [0, 0]
    ∧ (clear_session 9 "S1" exDB9).sessions.map ConversationSession.updated_at
        = [9, 0]
    ∧ (clear_session 9 "S1" exDB9).sessions.map ConversationSession.is_active
        = [false, true] := by
  decide

/-- C9 (amended): `clear_session` on an existing session changes only that
session's `is_active` flag and its `updated_at` timestamp (refreshed by the
column's `onupdate` hook): the message and task tables are untouched, a
subsequent history read returns exactly what it returned before, every
other session (looked up by id) is unchanged, and the cleared session keeps
its identity fields and `created_at`. -/
theorem clear_session_frame (now limit : Nat) (sid sid2 : String) (db : DB)
    (s : ConversationSession)
    (hne : sid2 ≠ sid)
    (hs : db.sessions.find? (fun x => x.session_id == sid) = some s) :
    (clear_session now sid db).messages = db.messages
    ∧ (clear_session now sid db).tasks = db.tasks
    ∧ get_session_history sid limit (clear_session now sid db)
        = get_session_history sid limit db
    ∧ (clear_session now sid db).sessions.find? (fun x => x.session_id == sid2)
        = db.sessions.find? (fun x => x.session_id == sid2)
    ∧ (clear_session now sid db).sessions.find? (fun x => x.session_id == sid)
        = some { s with is_active := false, updated_at := now } := by
  have hclear : clear_session now sid db
      = { db with sessions := db.sessions.map fun x =>
            if x.session_id == sid then
              { x with is_active := false, updated_at := now }
            else x } := by
    unfold clear_session
    rw [hs]
  refine ⟨by rw [hclear], by rw [hclear], ?_, ?_, ?_⟩
  · exact get_session_history_congr sid limit _ db (by rw [hclear])
  · rw [hclear]
    exact find?_map_fix _ _
      (key_pred_inv ConversationSession.session_id sid sid2
        (fun x => { x with is_active := false, updated_at := now })
        (fun _ => rfl))
      (fun x hx => by
        have hxid : x.session_id = sid2 := eq_of_beq hx
        have hfalse : (x.session_id == sid) = false :=
          beq_eq_false_iff_ne.mpr (hxid ▸ hne)
        rw [hfalse]
        simp)
      db.sessions
  · rw [hclear]
    show (db.sessions.map fun x =>
        if x.session_id == sid then
          { x with is_active := false, updated_at := now }
        else x).find? (fun x => x.session_id == sid)
      = some { s with is_active := false, updated_at := now }
    rw [find?_map_comm _ _
        (key_pred_inv ConversationSession.session_id sid sid
          (fun x => { x with is_active := false, updated_at := now })
          (fun _ => rfl)),
      hs, Option.map_some']
    have hsid : (s.session_id == sid) = true := by
      have h := List.find?_some hs
      exact h
    rw [hsid]
    simp

/-- Witness for C9: clearing `S1` of `exDB9` keeps messages, tasks, the
history of `S1`, and the unrelated session `S2` intact, and flips exactly
`is_active` / `updated_at` of `S1`. -/
theorem clear_session_frame_witness :
    (clear_session 9 "S1" exDB9).messages = exDB9.messages
    ∧ (clear_session 9 "S1" exDB9).tasks = exDB9.tasks
    ∧ get_session_history "S1" 50 (clear_session 9 "S1" exDB9)
        = get_session_history "S1" 50 exDB9
    ∧ (clear_session 9 "S1" exDB9).sessions.find?
        (fun x => x.session_id == "S2")
        = exDB9.sessions.find? (fun x => x.session_id == "S2")
    ∧ (clear_session 9 "S1" exDB9).sessions.find?
        (fun x => x.session_id == "S1")
        = some { exSess1 with is_active := false, updated_at := 9 } :=
  clear_session_frame 9 50 "S1" "S2" exDB9 exSess1 (by decide) (by decide)

end ConvergeAI
